import Mathlib

/-!
Shallow embedding of `flow/envs/multiagent/bottleneck.py` (repository
gitaar9/groupA1-coop-av-flow), covering the three environment classes
`BottleneckMultiAgentEnv`, `BottleneckFlowRewardMultiAgentEnv` and
`BottleneckDanielMultiAgentEnv`: their observation builders (`get_state`),
reward functions (`compute_reward`), action application (`_apply_rl_actions`)
and constructor parameter validation (`__init__`).

The simulator kernel (`self.k.vehicle`, `self.k.network`) is an external
collaborator; it is embedded as an abstract `Snapshot` of total functions.
Python floats are modelled by `ℚ` (none of the properties proved here depend
on floating-point rounding).
-/

set_option autoImplicit false

namespace Bottleneck

/-- Whether the first list is a prefix of the second. -/
def listStartsWith : List Char → List Char → Bool
  | _, [] => true
  | [], _ :: _ => false
  | a :: as, b :: bs => a == b && listStartsWith as bs

/-- Whether `pat` occurs as a contiguous sublist. -/
def listContainsSub (pat : List Char) : List Char → Bool
  | [] => pat.isEmpty
  | a :: as => listStartsWith (a :: as) pat || listContainsSub pat as

/-- Python `pat in s` on strings: substring containment. -/
def strContains (s pat : String) : Bool :=
  listContainsSub pat.data s.data

/-- Python `int(s)` on the digit-only edge ids `"1"`..`"5"` of the bottleneck
network.  (On a non-numeric string Python would raise `ValueError`; the code
only reaches `int(edge)` after excluding `''` and junction ids, and every
remaining edge id of this network is numeric.) -/
def strToInt (s : String) : Int :=
  (s.toInt?).getD 0

/-- Python 3 `round` to the nearest integer, ties to the nearest even integer
(banker's rounding), as applied to the lane-change action component. -/
def pyRound (q : ℚ) : Int :=
  let f := ⌊q⌋
  let frac := q - f
  if frac < 1 / 2 then f
  else if 1 / 2 < frac then f + 1
  else if Even f then f else f + 1

/-- Line 125 of the source tests `if lane_followers != '':`, comparing the whole
list `lane_followers` with the string `''`.  In Python a list is never equal to
a string, so this comparison is always true; the embedding records that
constant truth value of the source expression. -/
def pyListNeStr (xs : List String) (t : String) : Bool :=
  true

/-- Python `zip` of four lists (they all have equal length at the call sites,
where each is a comprehension/vectorised query over the same id list). -/
def zip4 {α β γ δ : Type} : List α → List β → List γ → List δ → List (α × β × γ × δ)
  | a :: as, b :: bs, c :: cs, d :: ds => (a, b, c, d) :: zip4 as bs cs ds
  | _, _, _, _ => []

/-- The per-agent action 2-vector `(acceleration, lane_change)` keyed by agent
id: the `rl_actions` dictionary. -/
abbrev PyActs : Type := List (String × ℚ × ℚ)

/-- Abstract simulator snapshot: the state readable through `self.k.vehicle` /
`self.k.network` at one step, together with the environment parameters the
embedded methods read.  All per-id maps are total functions; `hasVeh` tells
which ids name an actual vehicle (the empty id names none). -/
structure Snapshot where
  /-- Kernel query `self.k.vehicle.get_rl_ids()`. -/
  rl_ids : List String
  /-- whether an id names a vehicle currently in the network -/
  hasVeh : String → Bool
  /-- Kernel query `get_edge` (edge id of the vehicle; `''`/junction ids possible). -/
  edgeOf : String → String
  /-- lane index of an existing vehicle -/
  laneOf : String → Int
  /-- Kernel query `get_x_by_id` (absolute longitudinal position); modelled total. -/
  xPos : String → ℚ
  /-- speed of an existing vehicle -/
  speed : String → ℚ
  /-- Kernel query `get_lane_leaders`: one id per lane of the vehicle's edge, `''` = none. -/
  laneLeaders : String → List String
  /-- Kernel query `get_lane_followers`: one id per lane, `''` = none. -/
  laneFollowers : String → List String
  /-- Kernel query `get_lane_headways`. -/
  laneHeadways : String → List ℚ
  /-- Kernel query `get_lane_tailways`. -/
  laneTailways : String → List ℚ
  /-- Kernel query `get_last_lc` (simulation time of the vehicle's last lane change). -/
  lastLc : String → ℚ
  /-- Kernel query `self.k.network.num_lanes(edge)`. -/
  numLanes : String → Nat
  /-- Kernel query `self.k.network.speed_limit(edge)`. -/
  speedLimit : String → ℚ
  /-- Kernel query `self.k.network.max_speed()`. -/
  maxSpeed : ℚ
  /-- Kernel query `get_rl_outflow_rate(time_window)`. -/
  rlOutflowRate : ℚ → ℚ
  /-- Modelled from the spec: `flow.core.rewards.desired_velocity(self,
  edge_list=...)` (flow/core/rewards.py is not under src/) — an abstract
  snapshot-dependent scalar determined by the edge filter. -/
  desiredVelocity : List String → ℚ
  /-- Modelled from the spec: `flow.core.rewards.desired_velocity(self,
  edge_list=..., use_only_rl_ids=True)` — as above, restricted to rl ids. -/
  desiredVelocityRl : List String → ℚ
  /-- Attribute `self.scaling` (positive lane-scaling factor of the network). -/
  scaling : Nat
  /-- Attribute `self.sim_step`. -/
  simStep : ℚ
  /-- Attribute `self.time_counter`. -/
  timeCounter : ℚ
  /-- Parameter `env_params.additional_params['lane_change_duration']`. -/
  laneChangeDuration : ℚ

/-- Modelled from the spec: the kernel getters accept an `error` argument and
return it for an id that names no vehicle; neighbor queries signal "no such
vehicle" with the empty id (spec §6).  `get_lane(veh_id, error)`. -/
def getLane (s : Snapshot) (vid : String) (error : Int) : Int :=
  if s.hasVeh vid then s.laneOf vid else error

/-- Modelled from the spec: `get_speed(veh_id, error)`, as `getLane`. -/
def getSpeed (s : Snapshot) (vid : String) (error : ℚ) : ℚ :=
  if s.hasVeh vid then s.speed vid else error

/-- Kernel contract (spec §6: neighbor queries "return one entry per lane"),
plus: the empty id names no vehicle, and per-lane query lists never exceed the
`MAX_LANES * scaling` buffer the base observation builder writes them into. -/
def WF (s : Snapshot) : Prop :=
  s.hasVeh "" = false ∧
  ∀ vid ∈ s.rl_ids,
    (s.laneLeaders vid).length = s.numLanes (s.edgeOf vid) ∧
    (s.laneFollowers vid).length = s.numLanes (s.edgeOf vid) ∧
    (s.laneHeadways vid).length ≤ 4 * s.scaling ∧
    (s.laneTailways vid).length ≤ 4 * s.scaling ∧
    (s.laneLeaders vid).length ≤ 4 * s.scaling ∧
    (s.laneFollowers vid).length ≤ 4 * s.scaling

instance (s : Snapshot) : Decidable (WF s) := by
  unfold WF; infer_instance

/-! ## Module-level constants (lines 7–33) -/

/-- Constant `MAX_LANES = 4` (line 7). -/
def MAX_LANES : Nat := 4

/-- Constant `ADDITIONAL_RL_ENV_PARAMS` (lines 30–33): the only key this class itself
validates at construction. -/
def ADDITIONAL_RL_ENV_PARAMS : List (String × ℚ) := [("target_velocity", 30)]

/-! ## `BottleneckMultiAgentEnv.__init__` (lines 58–65) -/

/-- Modelled from the spec: the required parameters `max_accel`, `max_decel`
and `lane_change_duration` are validated by the superclass constructor chain
(`super().__init__`, line 65 — `BottleneckEnv`/`Env` live outside src/); per
spec §6/§7 a missing required parameter is a hard error at construction. -/
def superclassRequiredParams : List String := ["max_accel", "max_decel", "lane_change_duration"]

/-- Modelled from the spec: the superclass constructor's required-parameter
check, raising (as `Except.error`) on the first missing key. -/
def superclassInitCheck (supplied : List String) : Except String Unit :=
  match superclassRequiredParams.find? (fun p => !(supplied.contains p)) with
  | some p => Except.error p
  | none => Except.ok ()

/-- Constructor `BottleneckMultiAgentEnv.__init__` parameter validation (lines 60–65):
`for p in ADDITIONAL_RL_ENV_PARAMS.keys(): if p not in
env_params.additional_params: raise KeyError(...)`, then `super().__init__`.
`supplied` is the key set of `env_params.additional_params`. -/
def bottleneckMultiAgentInit (supplied : List String) : Except String Unit :=
  match (ADDITIONAL_RL_ENV_PARAMS.map Prod.fst).find? (fun p => !(supplied.contains p)) with
  | some p => Except.error p
  | none => superclassInitCheck supplied

/-! ## `BottleneckMultiAgentEnv.get_state` (lines 85–132) and its
`observation_space` (lines 79–83) -/

/-- Bound `low=0` of `observation_space` (line 83). -/
def baseObsLow : ℚ := 0

/-- Bound `high=1` of `observation_space` (line 83). -/
def baseObsHigh : ℚ := 1

/-- Length `num_obs = 4 * MAX_LANES * self.scaling + 4` (line 82). -/
def baseNumObs (scaling : Nat) : Nat := 4 * MAX_LANES * scaling + 4

/-- Per-vehicle body of `BottleneckMultiAgentEnv.get_state` (lines 91–130).
The guard at line 93 is `edge_num is None or edge_num == '' or edge_num[0] ==
':'`; `get_edge` returns a string here (never `None`), and `edge_num[0] ==
':'` is the head-character test.  `headway`/`tailway` start as
`[1000]*num_lanes / 1000` and their prefix is overwritten by the per-lane
query (lines 107–119); `vel_in_front`/`vel_behind` start as zeros and are
written at index `i` by the loops at lines 121–126.  The follower loop's
guard is `pyListNeStr` (see there). -/
def baseObserve (s : Snapshot) (rl_id : String) : List ℚ :=
  let edge := s.edgeOf rl_id
  let edge_num : ℚ :=
    if edge = "" ∨ edge.data.head? = some ':' then -1
    else (strToInt edge : ℚ) / 6
  let self_observation : List ℚ :=
    [s.xPos rl_id / 1000,
     getSpeed s rl_id (-1001) / s.maxSpeed,
     (getLane s rl_id (-1001) : ℚ) / (MAX_LANES : ℚ),
     edge_num]
  let num_lanes := MAX_LANES * s.scaling
  let lane_headways := s.laneHeadways rl_id
  let lane_tailways := s.laneTailways rl_id
  let headway : List ℚ :=
    lane_headways.map (· / 1000) ++ List.replicate (num_lanes - lane_headways.length) (1000 / 1000)
  let tailway : List ℚ :=
    lane_tailways.map (· / 1000) ++ List.replicate (num_lanes - lane_tailways.length) (1000 / 1000)
  let lane_leaders := s.laneLeaders rl_id
  let lane_followers := s.laneFollowers rl_id
  let vel_in_front : List ℚ :=
    (List.range num_lanes).map (fun i =>
      match lane_leaders.get? i with
      | some lane_leader =>
          if lane_leader ≠ "" then getSpeed s lane_leader (-1001) / s.maxSpeed else 0
      | none => 0)
  let vel_behind : List ℚ :=
    (List.range num_lanes).map (fun i =>
      match lane_followers.get? i with
      | some lane_follower =>
          if pyListNeStr lane_followers "" then getSpeed s lane_follower (-1001) / s.maxSpeed
          else 0
      | none => 0)
  self_observation ++ headway ++ tailway ++ vel_in_front ++ vel_behind

/-- Method `BottleneckMultiAgentEnv.get_state` (lines 85–132): one observation per
rl id, in the order produced by `get_rl_ids()`. -/
def baseGetState (s : Snapshot) : List (String × List ℚ) :=
  s.rl_ids.map (fun rl_id => (rl_id, baseObserve s rl_id))

/-- The ids the follower-speed loop (lines 124–126) passes to `get_speed`:
every entry of `lane_followers` for which the (constant-true) guard
`lane_followers != ''` holds. -/
def baseFollowerSpeedQueryIds (s : Snapshot) (rl_id : String) : List String :=
  (s.laneFollowers rl_id).filter (fun _ => pyListNeStr (s.laneFollowers rl_id) "")

/-! ## `BottleneckMultiAgentEnv.compute_reward` (lines 134–156) -/

/-- Method `BottleneckMultiAgentEnv.compute_reward`.  Here `rl_actions = none` models the
Python `None` of the warmup steps; an empty dictionary is likewise falsy for
the `if rl_actions:` guard (line 137).  The float literal `0.1` (line 149) is
modelled as the rational `1/10`. -/
def baseComputeReward (s : Snapshot) (rl_actions : Option PyActs) (fail : Bool) :
    List (String × ℚ) :=
  match rl_actions with
  | none => []
  | some acts =>
    if acts.isEmpty then []
    else
      s.rl_ids.map (fun rl_id =>
        (rl_id,
          if fail then 0
          else
            s.desiredVelocity [s.edgeOf rl_id]
              + getSpeed s rl_id (-1001) * (1 / 10)
              - (match List.lookup rl_id acts with
                 | some a => |a.2|
                 | none => 0)))

/-! ## `BottleneckMultiAgentEnv._apply_rl_actions` (lines 171–183) -/

/-- A command issued to the simulator kernel. -/
inductive Command where
  | accel (id : String) (a : ℚ)
  | laneChange (id : String) (d : Int)
  deriving DecidableEq, Repr

/-- Commands issued for one `(rl_id, actions)` entry (lines 178–183):
always `apply_acceleration(rl_id, actions[0])`; additionally
`apply_lane_change(str(rl_id), round(actions[1]))` when
`time_counter <= lane_change_duration + get_last_lc(rl_id)`. -/
def agentCommands (s : Snapshot) (p : String × ℚ × ℚ) : List Command :=
  Command.accel p.1 p.2.1 ::
    (if s.timeCounter ≤ s.laneChangeDuration + s.lastLc p.1 then
      [Command.laneChange p.1 (pyRound p.2.2)]
    else [])

/-- Method `BottleneckMultiAgentEnv._apply_rl_actions` (lines 171–183): the sequence
of kernel commands issued; nothing when `rl_actions` is falsy (line 177). -/
def applyRlActions (s : Snapshot) (rl_actions : Option PyActs) : List Command :=
  match rl_actions with
  | none => []
  | some acts => if acts.isEmpty then [] else acts.flatMap (agentCommands s)

/-! ## `BottleneckFlowRewardMultiAgentEnv` (lines 186–317) and
`BottleneckDanielMultiAgentEnv` (lines 320–492)

Both subclasses set `nr_self_perc_features = 3`, `perc_lanes_around = 1`,
`features_per_car = 3` (lines 68–70 and 345–347) and share the same
`get_state` body except for their `get_label`. -/

/-- Attribute `self.nr_self_perc_features = 3` (line 68). -/
def nr_self_perc_features : Nat := 3

/-- Attribute `self.perc_lanes_around = 1` (line 69). -/
def perc_lanes_around : Nat := 1

/-- Attribute `self.features_per_car = 3` (line 70). -/
def features_per_car : Nat := 3

/-- Value `perceived_lanes = 2 * self.perc_lanes_around + 1` (lines 192/353). -/
def perceived_lanes : Nat := 2 * perc_lanes_around + 1

/-- Value `perceived_cars = 2 * perceived_lanes` (lines 193/354). -/
def perceived_cars : Nat := 2 * perceived_lanes

/-- Value `perceived_features_others = perceived_cars * self.features_per_car`
(lines 194/355). -/
def perceived_features_others : Nat := perceived_cars * features_per_car

/-- Value `total_features = perceived_features_others + self.nr_self_perc_features`
(lines 195/356): the declared observation-space length of both subclasses. -/
def total_features : Nat := perceived_features_others + nr_self_perc_features

/-- Method `BottleneckFlowRewardMultiAgentEnv.get_label` (lines 201–206). -/
def get_label_flow (veh_id : String) : ℚ :=
  if strContains veh_id "rl" then 2
  else if strContains veh_id "human" then 1
  else 0

/-- Method `BottleneckDanielMultiAgentEnv.get_label` (lines 363–368). -/
def get_label_daniel (veh_id : String) : ℚ :=
  if strContains veh_id "rl" then 2
  else if strContains veh_id "human" || strContains veh_id "flow" then 1
  else 0

/-- Value `self_representation` (lines 218–220 / 380–382): x-position, speed, and
the speed limit of the current edge. -/
def selfRepresentation (s : Snapshot) (veh_id : String) : List ℚ :=
  [s.xPos veh_id, getSpeed s veh_id (-1001), s.speedLimit (s.edgeOf veh_id)]

/-- Value `headway_cars_map` (lines 227–237 / 389–399): `zip` of lane, label,
distance and speed of the per-lane leaders.  `get_x_by_id` is applied to every
leader id, `''` included (lines 228/390); `get_speed` uses
`error=max_speed()`; `get_lane` uses its default error. -/
def headwayCarsMap (lab : String → ℚ) (s : Snapshot) (veh_id : String) :
    List (Int × ℚ × ℚ × ℚ) :=
  let veh_x_pos := s.xPos veh_id
  let leading_cars_ids := s.laneLeaders veh_id
  let leading_cars_dist := leading_cars_ids.map (fun lead_id => s.xPos lead_id - veh_x_pos)
  let leading_cars_labels := leading_cars_ids.map lab
  let leading_cars_speed := leading_cars_ids.map (fun lead_id => getSpeed s lead_id s.maxSpeed)
  let leading_cars_lanes := leading_cars_ids.map (fun lead_id => getLane s lead_id (-1001))
  zip4 leading_cars_lanes leading_cars_labels leading_cars_dist leading_cars_speed

/-- Value `tailway_cars_map` (lines 255–265 / 417–428): as `headwayCarsMap` but the
distance of an empty follower id is `-1000` (lines 256–257), `get_speed` uses
`error=0` and `get_lane` uses `error=-1001`. -/
def tailwayCarsMap (lab : String → ℚ) (s : Snapshot) (veh_id : String) :
    List (Int × ℚ × ℚ × ℚ) :=
  let veh_x_pos := s.xPos veh_id
  let following_cars_ids := s.laneFollowers veh_id
  let following_cars_dist := following_cars_ids.map (fun follow_id =>
    if ¬(follow_id = "") then s.xPos follow_id - veh_x_pos else -1000)
  let following_cars_labels := following_cars_ids.map lab
  let following_cars_speed := following_cars_ids.map (fun follow_id => getSpeed s follow_id 0)
  let following_cars_lanes := following_cars_ids.map (fun follow_id => getLane s follow_id (-1001))
  zip4 following_cars_lanes following_cars_labels following_cars_dist following_cars_speed

/-- Loop body of the headway loop (lines 239–250 / 401–413) for one lane
offset `l`: the three features appended for the leader slot of lane `l`. -/
def headwaySlot (lab : String → ℚ) (s : Snapshot) (veh_id : String) (l : Int) : List ℚ :=
  let edge := s.edgeOf veh_id
  if 0 ≤ l ∧ l < (s.numLanes edge : Int) then
    let e := (headwayCarsMap lab s veh_id).getD l.toNat (0, 0, 0, 0)
    if e.1 = l then [e.2.1, e.2.2.1, e.2.2.2]
    else [0, 1000, s.maxSpeed]
  else [-1, -1, -1]

/-- Loop body of the tailway loop (lines 267–278 / 430–442) for one lane
offset `l`: the three features appended for the follower slot of lane `l`. -/
def tailwaySlot (lab : String → ℚ) (s : Snapshot) (veh_id : String) (l : Int) : List ℚ :=
  let edge := s.edgeOf veh_id
  if 0 ≤ l ∧ l < (s.numLanes edge : Int) then
    let e := (tailwayCarsMap lab s veh_id).getD l.toNat (0, 0, 0, 0)
    if e.1 = l then [e.2.1, e.2.2.1, e.2.2.2]
    else [0, -1000, 0]
  else [-1, -1, -1]

/-- Window `range(lane - self.perc_lanes_around, lane + self.perc_lanes_around + 1)`
(lines 239/267/401/430): the perceived lane window, in increasing order. -/
def laneWindow (lane : Int) : List Int :=
  (List.range (2 * perc_lanes_around + 1)).map
    (fun i => lane - (perc_lanes_around : Int) + i)

/-- One vehicle's observation in the lane-range builders (lines 214–282 /
376–446): self features, then the headway loop, then the tailway loop. -/
def observeVehicle (lab : String → ℚ) (s : Snapshot) (veh_id : String) : List ℚ :=
  let lane := getLane s veh_id (-1001)
  selfRepresentation s veh_id
    ++ (laneWindow lane).flatMap (headwaySlot lab s veh_id)
    ++ (laneWindow lane).flatMap (tailwaySlot lab s veh_id)

/-- Method `BottleneckFlowRewardMultiAgentEnv.get_state` (lines 208–293): one
observation per id of `get_rl_ids()`. -/
def flowGetState (s : Snapshot) : List (String × List ℚ) :=
  s.rl_ids.map (fun veh_id => (veh_id, observeVehicle get_label_flow s veh_id))

/-- Method `BottleneckDanielMultiAgentEnv.get_state` (lines 370–451): as the
flow-reward variant but only for ids containing `'rl'` (line 375), with the
Daniel labelling. -/
def danielGetState (s : Snapshot) : List (String × List ℚ) :=
  (s.rl_ids.filter (fun veh_id => strContains veh_id "rl")).map
    (fun veh_id => (veh_id, observeVehicle get_label_daniel s veh_id))

/-- The ids the headway block of the lane-range builders passes to
`get_x_by_id` in the distance comprehension (lines 228/390): every entry of
`get_lane_leaders`, with no emptiness check. -/
def flowLeaderPosQueryIds (s : Snapshot) (veh_id : String) : List String :=
  s.laneLeaders veh_id

/-- Method `BottleneckFlowRewardMultiAgentEnv.compute_reward` (lines 295–317). -/
def flowComputeReward (s : Snapshot) (rl_actions : Option PyActs) (fail : Bool) :
    List (String × ℚ) :=
  if fail then s.rl_ids.map (fun rl_id => (rl_id, 0))
  else
    let outflow_reward := 2 * s.rlOutflowRate (10 * s.simStep) / (2000 * (s.scaling : ℚ))
    match rl_actions with
    | none => []
    | some acts =>
      if acts.isEmpty then []
      else
        s.rl_ids.map (fun rl_id =>
          (rl_id, s.desiredVelocityRl [s.edgeOf rl_id] + outflow_reward))

/-- Method `BottleneckDanielMultiAgentEnv.compute_reward` (lines 453–492).  Note the
source never reads `kwargs['fail']` and never resets the accumulator `reward`
inside the loop (lines 475–489): each id's stored value is the running sum up
to its position.  `rl_actions` and `fail` are accepted but unused, exactly as
in the source. -/
def danielComputeReward (s : Snapshot) (rl_actions : Option PyActs) (fail : Bool) :
    List (String × ℚ) :=
  let scaling_factor_speed : ℚ := 3
  let scaling_factor_ofr : ℚ := 5
  let reward := s.rlOutflowRate (10 * s.simStep) / (2000 * (s.scaling : ℚ)) * scaling_factor_ofr
  let all_veh_speeds := s.rl_ids.map (fun rl_id => getSpeed s rl_id (-1001))
  let all_veh_edges := s.rl_ids.map s.edgeOf
  let all_veh_max_speeds := all_veh_edges.map s.speedLimit
  ((s.rl_ids.zip (all_veh_speeds.zip all_veh_max_speeds)).foldl
    (fun (st : ℚ × List (String × ℚ)) p =>
      if strContains p.1 "rl" then
        let r :=
          if p.2.1 < p.2.2 then st.1 + (p.2.1 / p.2.2) * scaling_factor_speed
          else st.1 + (1 / (p.2.1 / p.2.2)) * scaling_factor_speed
        (r, st.2 ++ [(p.1, r)])
      else st)
    (reward, [])).2

/-! ## Observation-layout selectors

In the lane-range observation (`observeVehicle`) the three self features come
first, then `2R+1 = 3` leader triples in lane-ascending order, then `2R+1 = 3`
follower triples in lane-ascending order.  These selectors extract the `k`-th
leader/follower triple (`k = 0, 1, 2` for lane offsets `-1, 0, +1`). -/

/-- The `k`-th leader triple of a lane-range observation vector. -/
def leaderSlot (obs : List ℚ) (k : Nat) : List ℚ :=
  (obs.drop (3 + 3 * k)).take 3

/-- The `k`-th follower triple of a lane-range observation vector. -/
def followerSlot (obs : List ℚ) (k : Nat) : List ℚ :=
  (obs.drop (12 + 3 * k)).take 3

/-- The lane index at offset position `k` of the perceived window. -/
def windowLane (s : Snapshot) (veh_id : String) (k : Nat) : Int :=
  getLane s veh_id (-1001) - (perc_lanes_around : Int) + k

/-- The loop guard `0 <= l < self.k.network.num_lanes(edge)` (lines 240/268). -/
def laneValid (s : Snapshot) (veh_id : String) (l : Int) : Prop :=
  0 ≤ l ∧ l < (s.numLanes (s.edgeOf veh_id) : Int)

instance (s : Snapshot) (veh_id : String) (l : Int) : Decidable (laneValid s veh_id l) := by
  unfold laneValid; infer_instance

/-! ## Concrete snapshots for witnesses and counterexamples -/

/-- A neutral concrete snapshot; the inputs below override single fields. -/
def snap0 : Snapshot where
  rl_ids := []
  hasVeh := fun _ => false
  edgeOf := fun _ => "3"
  laneOf := fun _ => 0
  xPos := fun _ => 0
  speed := fun _ => 0
  laneLeaders := fun _ => []
  laneFollowers := fun _ => []
  laneHeadways := fun _ => []
  laneTailways := fun _ => []
  lastLc := fun _ => 0
  numLanes := fun _ => 0
  speedLimit := fun _ => 20
  maxSpeed := 30
  rlOutflowRate := fun _ => 0
  desiredVelocity := fun _ => 0
  desiredVelocityRl := fun _ => 0
  scaling := 1
  simStep := 1 / 10
  timeCounter := 0
  laneChangeDuration := 5

/-- One rl vehicle at speed 10 (speed limit 20, no outflow). -/
def cs1 : Snapshot :=
  { snap0 with
    rl_ids := ["rl_0"]
    hasVeh := fun v => v == "rl_0"
    speed := fun _ => 10 }

/-- One rl vehicle `"rl_0"` on lane 1 of a 2-lane edge, a human leader in
lane 1 and a human follower in lane 0, no neighbor in the other slots. -/
def snapA : Snapshot :=
  { snap0 with
    rl_ids := ["rl_0"]
    hasVeh := fun v => v == "rl_0" || v == "human_1" || v == "human_2"
    laneOf := fun v => if v == "rl_0" then 1 else if v == "human_1" then 1 else 0
    xPos := fun v => if v == "human_1" then 140 else if v == "human_2" then 70 else 100
    speed := fun v => if v == "rl_0" then 10 else 12
    laneLeaders := fun _ => ["", "human_1"]
    laneFollowers := fun _ => ["human_2", ""]
    laneHeadways := fun _ => [1000, 40]
    laneTailways := fun _ => [30, 1000]
    numLanes := fun _ => 2 }

/-- A step 1 snapshot whose vehicle changed lanes at time 0: the elapsed time
1 is below the cooldown 5. -/
def cs3 : Snapshot :=
  { snap0 with
    rl_ids := ["rl_0"]
    hasVeh := fun v => v == "rl_0"
    timeCounter := 1
    lastLc := fun _ => 0 }

/-- Two rl vehicles: `"rl_0"` below the limit (speed 10 of 20) and `"rl_1"`
above it (speed 30 of 20). -/
def cs4 : Snapshot :=
  { snap0 with
    rl_ids := ["rl_0", "rl_1"]
    hasVeh := fun v => v == "rl_0" || v == "rl_1"
    speed := fun v => if v == "rl_1" then 30 else 10 }

/-- Snapshot `cs4` with the two rl ids enumerated in the opposite order. -/
def cs4s : Snapshot :=
  { cs4 with rl_ids := ["rl_1", "rl_0"] }

/-- One rl vehicle on a 4-lane edge with no follower in lanes 0, 2, 3 (empty
ids in the follower query) and a follower `"f_1"` in lane 1. -/
def cs6 : Snapshot :=
  { snap0 with
    rl_ids := ["rl_0"]
    hasVeh := fun v => v == "rl_0" || v == "f_1"
    laneOf := fun v => if v == "f_1" then 1 else 0
    speed := fun v => if v == "f_1" then 12 else 10
    laneLeaders := fun _ => ["", "", "", ""]
    laneFollowers := fun _ => ["", "f_1", "", ""]
    laneHeadways := fun _ => [1000, 1000, 1000, 1000]
    laneTailways := fun _ => [1000, 25, 1000, 1000]
    numLanes := fun _ => 4 }

/-- One controlled vehicle whose id does not contain `'rl'`. -/
def cs9 : Snapshot :=
  { snap0 with
    rl_ids := ["av_0"]
    hasVeh := fun v => v == "av_0" }

/-- One rl vehicle on an internal/junction edge (id starting with `':'`). -/
def cs10 : Snapshot :=
  { snap0 with
    rl_ids := ["rl_0"]
    hasVeh := fun v => v == "rl_0"
    edgeOf := fun _ => ":junction_4" }

/-! ## Helper lemmas -/

theorem zip4_map {α β γ δ ε : Type} (f : α → β) (g : α → γ) (h : α → δ) (i : α → ε) :
    ∀ l : List α, zip4 (l.map f) (l.map g) (l.map h) (l.map i) =
      l.map (fun x => (f x, g x, h x, i x))
  | [] => rfl
  | a :: as => by simp [zip4, zip4_map f g h i as]

theorem headwayCarsMap_eq (lab : String → ℚ) (s : Snapshot) (veh_id : String) :
    headwayCarsMap lab s veh_id =
      (s.laneLeaders veh_id).map (fun lead_id =>
        (getLane s lead_id (-1001), lab lead_id,
         s.xPos lead_id - s.xPos veh_id, getSpeed s lead_id s.maxSpeed)) := by
  simp only [headwayCarsMap]
  exact zip4_map _ _ _ _ _

theorem tailwayCarsMap_eq (lab : String → ℚ) (s : Snapshot) (veh_id : String) :
    tailwayCarsMap lab s veh_id =
      (s.laneFollowers veh_id).map (fun follow_id =>
        (getLane s follow_id (-1001), lab follow_id,
         if ¬(follow_id = "") then s.xPos follow_id - s.xPos veh_id else -1000,
         getSpeed s follow_id 0)) := by
  simp only [tailwayCarsMap]
  exact zip4_map _ _ _ _ _

theorem headwaySlot_length (lab : String → ℚ) (s : Snapshot) (veh_id : String) (l : Int) :
    (headwaySlot lab s veh_id l).length = 3 := by
  simp only [headwaySlot]
  split
  · split <;> rfl
  · rfl

theorem tailwaySlot_length (lab : String → ℚ) (s : Snapshot) (veh_id : String) (l : Int) :
    (tailwaySlot lab s veh_id l).length = 3 := by
  simp only [tailwaySlot]
  split
  · split <;> rfl
  · rfl

theorem length3_decomp {a : List ℚ} (h : a.length = 3) : ∃ x y z : ℚ, a = [x, y, z] := by
  match a, h with
  | [x, y, z], _ => exact ⟨x, y, z, rfl⟩

theorem laneWindow_eq (lane : Int) : laneWindow lane = [lane - 1, lane, lane + 1] := by
  simp [laneWindow, perc_lanes_around, List.range_succ]
  omega

/-- The observation of `observeVehicle` decomposes positionally: the `k`-th
leader/follower triple is the loop body's value at lane offset `lane - 1 + k`. -/
theorem slots_observe (lab : String → ℚ) (s : Snapshot) (veh_id : String) (k : Nat)
    (hk : k < 3) :
    leaderSlot (observeVehicle lab s veh_id) k =
      headwaySlot lab s veh_id (getLane s veh_id (-1001) - 1 + k) ∧
    followerSlot (observeVehicle lab s veh_id) k =
      tailwaySlot lab s veh_id (getLane s veh_id (-1001) - 1 + k) := by
  obtain ⟨a1, a2, a3, hA⟩ := length3_decomp
    (headwaySlot_length lab s veh_id (getLane s veh_id (-1001) - 1))
  obtain ⟨b1, b2, b3, hB⟩ := length3_decomp
    (headwaySlot_length lab s veh_id (getLane s veh_id (-1001)))
  obtain ⟨c1, c2, c3, hC⟩ := length3_decomp
    (headwaySlot_length lab s veh_id (getLane s veh_id (-1001) + 1))
  obtain ⟨d1, d2, d3, hD⟩ := length3_decomp
    (tailwaySlot_length lab s veh_id (getLane s veh_id (-1001) - 1))
  obtain ⟨e1, e2, e3, hE⟩ := length3_decomp
    (tailwaySlot_length lab s veh_id (getLane s veh_id (-1001)))
  obtain ⟨f1, f2, f3, hF⟩ := length3_decomp
    (tailwaySlot_length lab s veh_id (getLane s veh_id (-1001) + 1))
  have h1 : getLane s veh_id (-1001) - 1 + (1 : Int) = getLane s veh_id (-1001) := by omega
  have h2 : getLane s veh_id (-1001) - 1 + (2 : Int) = getLane s veh_id (-1001) + 1 := by omega
  interval_cases k
  · simp only [observeVehicle, laneWindow_eq, List.flatMap_cons, List.flatMap_nil,
      List.append_nil, selfRepresentation, leaderSlot, followerSlot,
      Nat.cast_zero, add_zero, hA, hB, hC, hD, hE, hF]
    exact ⟨rfl, rfl⟩
  · simp only [observeVehicle, laneWindow_eq, List.flatMap_cons, List.flatMap_nil,
      List.append_nil, selfRepresentation, leaderSlot, followerSlot,
      Nat.cast_one, h1, hA, hB, hC, hD, hE, hF]
    exact ⟨rfl, rfl⟩
  · simp only [observeVehicle, laneWindow_eq, List.flatMap_cons, List.flatMap_nil,
      List.append_nil, selfRepresentation, leaderSlot, followerSlot,
      Nat.cast_ofNat, h2, hA, hB, hC, hD, hE, hF]
    exact ⟨rfl, rfl⟩

theorem observeVehicle_length (lab : String → ℚ) (s : Snapshot) (veh_id : String) :
    (observeVehicle lab s veh_id).length = total_features := by
  simp only [observeVehicle, laneWindow_eq, List.flatMap_cons, List.flatMap_nil,
    List.append_nil, selfRepresentation, List.length_append, List.length_cons,
    List.length_nil, headwaySlot_length, tailwaySlot_length]
  rfl

theorem windowLane_eq (s : Snapshot) (veh_id : String) (k : Nat) :
    windowLane s veh_id k = getLane s veh_id (-1001) - 1 + k := by
  simp [windowLane, perc_lanes_around]

theorem pyRound_bounds (q : ℚ) (h1 : -1 ≤ q) (h2 : q ≤ 1) :
    pyRound q = -1 ∨ pyRound q = 0 ∨ pyRound q = 1 := by
  have hf1 : (-1 : Int) ≤ ⌊q⌋ := by
    have : ((-1 : Int) : ℚ) ≤ q := by push_cast; exact h1
    exact Int.le_floor.mpr this
  have hf2 : ⌊q⌋ ≤ 1 := by
    have := Int.floor_le_floor h2
    simpa using this
  simp only [pyRound]
  interval_cases h : ⌊q⌋
  · split_ifs <;> norm_num
  · split_ifs <;> norm_num
  · have hq : q = 1 := by
      have hfl : ((1 : Int) : ℚ) ≤ q := by rw [← h]; exact Int.floor_le q
      push_cast at hfl
      exact le_antisymm h2 hfl
    subst hq
    norm_num

/-! ## Claim theorems -/

/-- C2: for every controlled agent the lane-range observation builders
(`get_state` of the flow-reward and Daniel variants) return a vector of
exactly the declared length `S + F * 2 * (2R+1) = 3 + 3*2*3 = 21`
(`total_features` of `observation_space`), whatever the snapshot — however
many real neighbors exist and wherever the agent's lane lies. -/
theorem obs_length_constant (s : Snapshot) (hwf : WF s) :
    (∀ p ∈ flowGetState s, p.2.length = total_features) ∧
    (∀ p ∈ danielGetState s, p.2.length = total_features) ∧
    total_features =
      nr_self_perc_features + features_per_car * (2 * (2 * perc_lanes_around + 1)) ∧
    total_features = 21 := by
  refine ⟨?_, ?_, rfl, rfl⟩
  · intro p hp
    simp only [flowGetState, List.mem_map] at hp
    obtain ⟨v, hv, rfl⟩ := hp
    exact observeVehicle_length _ s v
  · intro p hp
    simp only [danielGetState, List.mem_map, List.mem_filter] at hp
    obtain ⟨v, hv, rfl⟩ := hp
    exact observeVehicle_length _ s v

/-- Witness for C2 at the concrete well-formed snapshot `snapA`. -/
theorem obs_length_constant_witness :
    (∀ p ∈ flowGetState snapA, p.2.length = total_features) ∧
    (∀ p ∈ danielGetState snapA, p.2.length = total_features) ∧
    total_features =
      nr_self_perc_features + features_per_car * (2 * (2 * perc_lanes_around + 1)) ∧
    total_features = 21 :=
  obs_length_constant snapA (by decide)

/-- C5: in the lane-range observation builders, for the lane offset at window
position `k` (lane `own_lane - R + k`, offsets in increasing order): an
out-of-range lane yields the `(-1, -1, -1)` sentinel in both the leader and
the follower slot; a valid lane whose leader query returned the empty id (no
real leader) yields the leader sentinel `(0, 1000, max_network_speed)`; a
valid lane whose follower query returned the empty id yields the follower
sentinel `(0, -1000, 0)`. -/
theorem observe_slot_sentinels (lab : String → ℚ) (s : Snapshot) (veh_id : String) (k : Nat)
    (hk : k < 2 * perc_lanes_around + 1) (hempty : s.hasVeh "" = false) :
    (¬ laneValid s veh_id (windowLane s veh_id k) →
      leaderSlot (observeVehicle lab s veh_id) k = [-1, -1, -1] ∧
      followerSlot (observeVehicle lab s veh_id) k = [-1, -1, -1]) ∧
    (laneValid s veh_id (windowLane s veh_id k) →
      (s.laneLeaders veh_id)[(windowLane s veh_id k).toNat]? = some "" →
      leaderSlot (observeVehicle lab s veh_id) k = [0, 1000, s.maxSpeed]) ∧
    (laneValid s veh_id (windowLane s veh_id k) →
      (s.laneFollowers veh_id)[(windowLane s veh_id k).toNat]? = some "" →
      followerSlot (observeVehicle lab s veh_id) k = [0, -1000, 0]) := by
  have hk3 : k < 3 := hk
  obtain ⟨hL, hF⟩ := slots_observe lab s veh_id k hk3
  rw [windowLane_eq]
  refine ⟨?_, ?_, ?_⟩
  · intro hinv
    simp only [laneValid] at hinv
    constructor
    · rw [hL]
      simp only [headwaySlot]
      rw [if_neg hinv]
    · rw [hF]
      simp only [tailwaySlot]
      rw [if_neg hinv]
  · intro hval hlead
    simp only [laneValid] at hval
    rw [hL]
    simp only [headwaySlot]
    rw [if_pos hval]
    have hmap : (headwayCarsMap lab s veh_id).getD
        (getLane s veh_id (-1001) - 1 + (k : Int)).toNat (0, 0, 0, 0) =
        (getLane s "" (-1001), lab "", s.xPos "" - s.xPos veh_id,
          getSpeed s "" s.maxSpeed) := by
      rw [headwayCarsMap_eq, List.getD_eq_getElem?_getD, List.getElem?_map, hlead]
      rfl
    rw [hmap]
    have hne : getLane s "" (-1001) ≠ getLane s veh_id (-1001) - 1 + (k : Int) := by
      have : getLane s "" (-1001) = -1001 := by simp [getLane, hempty]
      rw [this]
      have h0 : 0 ≤ getLane s veh_id (-1001) - 1 + (k : Int) := hval.1
      omega
    rw [if_neg hne]
  · intro hval hfoll
    simp only [laneValid] at hval
    rw [hF]
    simp only [tailwaySlot]
    rw [if_pos hval]
    have hmap : (tailwayCarsMap lab s veh_id).getD
        (getLane s veh_id (-1001) - 1 + (k : Int)).toNat (0, 0, 0, 0) =
        (getLane s "" (-1001), lab "",
          if ¬(("" : String) = "") then s.xPos "" - s.xPos veh_id else -1000,
          getSpeed s "" 0) := by
      rw [tailwayCarsMap_eq, List.getD_eq_getElem?_getD, List.getElem?_map, hfoll]
      rfl
    rw [hmap]
    have hne : getLane s "" (-1001) ≠ getLane s veh_id (-1001) - 1 + (k : Int) := by
      have : getLane s "" (-1001) = -1001 := by simp [getLane, hempty]
      rw [this]
      have h0 : 0 ≤ getLane s veh_id (-1001) - 1 + (k : Int) := hval.1
      omega
    rw [if_neg hne]

/-- Witness for C5 at `snapA`: leader slot of lane 0 (position `k = 0`) gets
the no-leader sentinel, follower slot of lane 1 (`k = 1`) gets the no-follower
sentinel, and both slots of the nonexistent lane 2 (`k = 2`) get `(-1,-1,-1)`. -/
theorem observe_slot_sentinels_witness :
    leaderSlot (observeVehicle get_label_flow snapA "rl_0") 0 = [0, 1000, snapA.maxSpeed] ∧
    followerSlot (observeVehicle get_label_flow snapA "rl_0") 1 = [0, -1000, 0] ∧
    leaderSlot (observeVehicle get_label_flow snapA "rl_0") 2 = [-1, -1, -1] ∧
    followerSlot (observeVehicle get_label_flow snapA "rl_0") 2 = [-1, -1, -1] := by
  have h0 := observe_slot_sentinels get_label_flow snapA "rl_0" 0 (by decide) (by decide)
  have h1 := observe_slot_sentinels get_label_flow snapA "rl_0" 1 (by decide) (by decide)
  have h2 := observe_slot_sentinels get_label_flow snapA "rl_0" 2 (by decide) (by decide)
  refine ⟨h0.2.1 (by decide) (by decide), h1.2.2 (by decide) (by decide),
    (h2.1 (by decide)).1, (h2.1 (by decide)).2⟩

/-- C1 counterexample: the Daniel variant's `compute_reward` never reads
`fail`; with `fail = True` the single controlled agent `"rl_0"` (speed 10,
limit 20, zero outflow) still receives the nonzero reward `3/2`. -/
theorem daniel_reward_ignores_fail_cex :
    cs1.rl_ids = ["rl_0"] ∧
    danielComputeReward cs1 none true = [("rl_0", 3 / 2)] ∧
    ((3 / 2 : ℚ) ≠ 0) := by
  refine ⟨rfl, ?_, by norm_num⟩
  simp +decide [danielComputeReward, cs1, snap0, getSpeed, strContains]
  norm_num

/-- C1 amended: with `fail = True`, the flow-reward variant maps every
controlled agent to reward 0 whatever the action mapping; the base variant
does so whenever the action mapping is non-empty (with `None`/empty actions it
returns an empty mapping); the Daniel variant ignores `fail` entirely (see the
counterexample). -/
theorem computeReward_fail_zero_amended (s : Snapshot) (rl_actions : Option PyActs) :
    ((flowComputeReward s rl_actions true).map Prod.fst = s.rl_ids ∧
      ∀ p ∈ flowComputeReward s rl_actions true, p.2 = 0) ∧
    (∀ acts : PyActs, acts ≠ [] →
      ((baseComputeReward s (some acts) true).map Prod.fst = s.rl_ids ∧
        ∀ p ∈ baseComputeReward s (some acts) true, p.2 = 0)) ∧
    baseComputeReward s none true = [] := by
  refine ⟨⟨?_, ?_⟩, ?_, rfl⟩
  · simp [flowComputeReward, Function.comp_def]
  · intro p hp
    simp only [flowComputeReward, if_true, List.mem_map] at hp
    obtain ⟨v, hv, rfl⟩ := hp
    rfl
  · intro acts hacts
    have hne : acts.isEmpty = false := by
      cases acts with
      | nil => exact absurd rfl hacts
      | cons a as => rfl
    constructor
    · simp [baseComputeReward, hne, Function.comp_def]
    · intro p hp
      simp only [baseComputeReward, hne, Bool.false_eq_true, if_false, List.mem_map] at hp
      obtain ⟨v, hv, rfl⟩ := hp
      simp

/-- Witness for the amended C1 at `cs1` with a non-empty action mapping. -/
theorem computeReward_fail_zero_amended_witness :
    (baseComputeReward cs1 (some [("rl_0", (0, 1))]) true).map Prod.fst = cs1.rl_ids ∧
    ∀ p ∈ baseComputeReward cs1 (some [("rl_0", (0, 1))]) true, p.2 = 0 :=
  (computeReward_fail_zero_amended cs1 (some [("rl_0", (0, 1))])).2.1
    [("rl_0", (0, 1))] (by decide)

/-- C3 counterexample: at `cs3` the elapsed time since the last lane change
(1 - 0 = 1) is below the cooldown `lane_change_duration = 5`, yet
`_apply_rl_actions` does issue the lane-change command (the source's guard
`time_counter <= lane_change_duration + last_lc` has the opposite sense of the
claim). -/
theorem laneChange_cooldown_cex :
    cs3.timeCounter - cs3.lastLc "rl_0" < cs3.laneChangeDuration ∧
    Command.laneChange "rl_0" 1 ∈ applyRlActions cs3 (some [("rl_0", (0, 1))]) := by
  constructor
  · show (1 : ℚ) - 0 < 5
    norm_num
  · simp +decide [applyRlActions, agentCommands, cs3, snap0, pyRound]

/-- C3 amended: for an agent present in the action mapping, a lane-change
command is issued for it iff `time_counter <= lane_change_duration +
get_last_lc(agent)` — i.e. requests *before* the window
`lane_change_duration` past the last lane change has elapsed are applied, and
requests after it are silently dropped. -/
theorem laneChange_window_amended (s : Snapshot) (acts : PyActs) (id : String) (a b : ℚ)
    (hmem : (id, (a, b)) ∈ acts) :
    (∃ d, Command.laneChange id d ∈ applyRlActions s (some acts)) ↔
      s.timeCounter ≤ s.laneChangeDuration + s.lastLc id := by
  have hne : acts.isEmpty = false := by
    cases acts with
    | nil => simp at hmem
    | cons x xs => rfl
  constructor
  · rintro ⟨d, hd⟩
    simp only [applyRlActions, hne, Bool.false_eq_true, if_false, List.mem_flatMap] at hd
    obtain ⟨p, hp, hcmd⟩ := hd
    simp only [agentCommands, List.mem_cons] at hcmd
    rcases hcmd with h | h
    · exact absurd h (by simp)
    · by_cases hcond : s.timeCounter ≤ s.laneChangeDuration + s.lastLc p.1
      · rw [if_pos hcond] at h
        simp only [List.mem_singleton, Command.laneChange.injEq] at h
        rw [h.1]
        exact hcond
      · rw [if_neg hcond] at h
        simp at h
  · intro hcond
    refine ⟨pyRound b, ?_⟩
    simp only [applyRlActions, hne, Bool.false_eq_true, if_false, List.mem_flatMap]
    refine ⟨(id, (a, b)), hmem, ?_⟩
    simp [agentCommands, if_pos hcond]

/-- Witness for the amended C3 at `cs3`. -/
theorem laneChange_window_amended_witness :
    (∃ d, Command.laneChange "rl_0" d ∈ applyRlActions cs3 (some [("rl_0", (0, 1))])) ↔
      cs3.timeCounter ≤ cs3.laneChangeDuration + cs3.lastLc "rl_0" :=
  laneChange_window_amended cs3 [("rl_0", (0, 1))] "rl_0" 0 1 (by decide)

/-- C4: the Daniel variant's reward accumulator is shared across the agent
loop, so one agent's reward is *not* the outflow term plus a term of its own
speed only: with zero outflow, `"rl_0"` at speed 10/20 contributes `3/2` and
`"rl_1"` at speed 30/20 contributes `2`, yet the second-enumerated agent
receives the running sum (`7/2`), and which agent gets which value depends on
the enumeration order (`cs4` vs `cs4s`). -/
theorem daniel_reward_accumulates_bug :
    danielComputeReward cs4 none false = [("rl_0", 3 / 2), ("rl_1", 7 / 2)] ∧
    danielComputeReward cs4s none false = [("rl_1", 2), ("rl_0", 7 / 2)] ∧
    ((7 / 2 : ℚ) ≠ 2) := by
  refine ⟨?_, ?_, by norm_num⟩
  · norm_num +decide [danielComputeReward, cs4, snap0, getSpeed, strContains]
  · norm_num +decide [danielComputeReward, cs4s, cs4, snap0, getSpeed, strContains]

/-- C6: empty neighbor ids *are* dereferenced during feature extraction.  In
the base `get_state` the follower loop's guard compares the whole list with
`''` (always true), so `get_speed` is called on the empty id of the missing
lane-0 follower of `cs6` and the kernel error value `-1001` leaks into the
observation (slot 16, the first `vel_behind` entry, instead of its sentinel
0); the lane-range builders likewise call `get_x_by_id` on every leader id,
empty or not. -/
theorem empty_id_dereferenced_bug :
    "" ∈ baseFollowerSpeedQueryIds cs6 "rl_0" ∧
    "" ∈ flowLeaderPosQueryIds cs6 "rl_0" ∧
    (baseObserve cs6 "rl_0").get? 16 = some (-1001 / 30) ∧
    ((-1001 / 30 : ℚ) ≠ 0) := by
  refine ⟨by decide, by decide, ?_, by norm_num⟩
  norm_num +decide [baseObserve, cs6, snap0, getSpeed, getLane, pyListNeStr, strToInt,
    MAX_LANES, List.range_succ]

/-- C7 counterexample: the source passes `round(actions[1])` with no clamping:
a lane-change component of `2` is issued as direction `2`, outside
`{-1, 0, 1}`. -/
theorem laneChange_clamp_cex :
    Command.laneChange "rl_0" 2 ∈ applyRlActions cs3 (some [("rl_0", (0, 2))]) ∧
    ((2 : Int) ≠ -1 ∧ (2 : Int) ≠ 0 ∧ (2 : Int) ≠ 1) := by
  refine ⟨?_, by decide⟩
  simp +decide [applyRlActions, agentCommands, cs3, snap0, pyRound]

/-- C7 amended: every issued lane-change direction equals the Python-3
`round` (nearest integer, ties to even) of that agent's lane-change action
component, with no clamping applied; whenever the component lies within the
declared action bounds `[-1, 1]`, that rounded value does lie in
`{-1, 0, 1}`. -/
theorem laneChange_direction_amended (s : Snapshot) (acts : PyActs) (id : String) (d : Int)
    (hd : Command.laneChange id d ∈ applyRlActions s (some acts)) :
    (∃ a b, (id, (a, b)) ∈ acts ∧ d = pyRound b) ∧
    (∀ q : ℚ, -1 ≤ q → q ≤ 1 → pyRound q = -1 ∨ pyRound q = 0 ∨ pyRound q = 1) := by
  refine ⟨?_, fun q h1 h2 => pyRound_bounds q h1 h2⟩
  have hne : acts.isEmpty = false := by
    cases acts with
    | nil => simp [applyRlActions] at hd
    | cons x xs => rfl
  simp only [applyRlActions, hne, Bool.false_eq_true, if_false, List.mem_flatMap] at hd
  obtain ⟨p, hp, hcmd⟩ := hd
  simp only [agentCommands, List.mem_cons] at hcmd
  rcases hcmd with h | h
  · exact absurd h (by simp)
  · by_cases hcond : s.timeCounter ≤ s.laneChangeDuration + s.lastLc p.1
    · rw [if_pos hcond] at h
      simp only [List.mem_singleton, Command.laneChange.injEq] at h
      refine ⟨p.2.1, p.2.2, ?_, h.2⟩
      rw [h.1]
      exact hp
    · rw [if_neg hcond] at h
      simp at h

/-- Witness for the amended C7 at `cs3` with lane-change component 2. -/
theorem laneChange_direction_amended_witness :
    (∃ a b, ("rl_0", (a, b)) ∈ ([("rl_0", (0, 2))] : PyActs) ∧ (2 : Int) = pyRound b) ∧
    (∀ q : ℚ, -1 ≤ q → q ≤ 1 → pyRound q = -1 ∨ pyRound q = 0 ∨ pyRound q = 1) :=
  laneChange_direction_amended cs3 [("rl_0", (0, 2))] "rl_0" 2
    (by simp +decide [applyRlActions, agentCommands, cs3, snap0, pyRound])

/-- C8: construction succeeds only when all four required parameters are
supplied — equivalently, a missing `target_velocity` (checked in
`BottleneckMultiAgentEnv.__init__` itself), `max_accel`, `max_decel` or
`lane_change_duration` (checked by the superclass constructor chain, modelled
from the spec) makes construction fail with an error. -/
theorem init_requires_four_params (supplied : List String)
    (hok : bottleneckMultiAgentInit supplied = Except.ok ()) :
    "target_velocity" ∈ supplied ∧ "max_accel" ∈ supplied ∧
      "max_decel" ∈ supplied ∧ "lane_change_duration" ∈ supplied := by
  by_cases h1 : "target_velocity" ∈ supplied
  · by_cases h2 : "max_accel" ∈ supplied
    · by_cases h3 : "max_decel" ∈ supplied
      · by_cases h4 : "lane_change_duration" ∈ supplied
        · exact ⟨h1, h2, h3, h4⟩
        · exfalso
          simp [bottleneckMultiAgentInit, superclassInitCheck, ADDITIONAL_RL_ENV_PARAMS,
            superclassRequiredParams, h1, h2, h3, h4] at hok
      · exfalso
        simp [bottleneckMultiAgentInit, superclassInitCheck, ADDITIONAL_RL_ENV_PARAMS,
          superclassRequiredParams, h1, h2, h3] at hok
    · exfalso
      simp [bottleneckMultiAgentInit, superclassInitCheck, ADDITIONAL_RL_ENV_PARAMS,
        superclassRequiredParams, h1, h2] at hok
  · exfalso
    simp [bottleneckMultiAgentInit, ADDITIONAL_RL_ENV_PARAMS, h1] at hok

/-- Witness for C8: with all four parameters supplied, construction succeeds
and the theorem applies. -/
theorem init_requires_four_params_witness :
    "target_velocity" ∈ ["target_velocity", "max_accel", "max_decel", "lane_change_duration"] ∧
    "max_accel" ∈ ["target_velocity", "max_accel", "max_decel", "lane_change_duration"] ∧
    "max_decel" ∈ ["target_velocity", "max_accel", "max_decel", "lane_change_duration"] ∧
    "lane_change_duration" ∈
      ["target_velocity", "max_accel", "max_decel", "lane_change_duration"] :=
  init_requires_four_params
    ["target_velocity", "max_accel", "max_decel", "lane_change_duration"] (by rfl)

/-- C9 counterexample: the Daniel variant's `get_state` filters on
`'rl' in veh_id`, so the controlled id `"av_0"` gets no observation at all. -/
theorem daniel_getState_skips_ids_cex :
    cs9.rl_ids = ["av_0"] ∧ (danielGetState cs9).map Prod.fst = [] := by
  exact ⟨rfl, by decide⟩

/-- C9 amended: the base and flow-reward `get_state` return one observation
per controlled id (exactly the rl-ids, in order); the Daniel variant returns
observations exactly for the controlled ids containing `'rl'` as a
substring. -/
theorem getState_keys_amended (s : Snapshot) :
    (baseGetState s).map Prod.fst = s.rl_ids ∧
    (flowGetState s).map Prod.fst = s.rl_ids ∧
    (danielGetState s).map Prod.fst =
      s.rl_ids.filter (fun veh_id => strContains veh_id "rl") := by
  refine ⟨?_, ?_, ?_⟩ <;>
    simp [baseGetState, flowGetState, danielGetState, Function.comp_def]

/-- C10: the base environment declares observation bounds `[0, 1]`
(`Box(low=0, high=1)`), but on an internal/junction edge the edge-number
self-feature (index 3) of `get_state` is `-1`, below the declared lower
bound. -/
theorem base_obs_bounds_bug :
    cs10.edgeOf "rl_0" = ":junction_4" ∧
    (baseObserve cs10 "rl_0").get? 3 = some (-1) ∧
    ¬ (baseObsLow ≤ -1) := by
  refine ⟨rfl, ?_, by norm_num [baseObsLow]⟩
  simp +decide [baseObserve, cs10, snap0, getSpeed, getLane, pyListNeStr, strToInt,
    MAX_LANES, List.range_succ]

end Bottleneck

